import Mathlib

/-!
Shallow embedding of confluent_scrollable.py: a curses dashboard that
fetches endpoint records, sorts them, and keeps a selection cursor and a
scroll window consistent while navigation keys arrive.  Machine integers
of the source are modelled as Int (Python integers are unbounded), time
stamps as rationals, and raising code as Option-valued functions where
the value none models a propagated exception.
-/

/-- Endpoint record as consumed by the viewer: the source reads the keys
name (line 65 and 146) and phase (lines 83 and 148) of each JSON object. -/
structure Endpoint where
  name : String
  phase : String
deriving DecidableEq

/-- Splitting a character list at every dash, mirroring the Python
expression name.split(chr(45)) used on line 65: every occurrence splits,
adjacent separators yield empty segments, and the result is never empty. -/
def splitOnDash : List Char → List (List Char)
  | [] => [[]]
  | c :: rest =>
    let r := splitOnDash rest
    if c = '-' then [] :: r
    else
      match r with
      | [] => [[c]]
      | s :: ss => (c :: s) :: ss

/-- Value of a decimal digit character, none when the character is not a
digit. -/
def digitVal (c : Char) : Option Nat :=
  if '0' ≤ c ∧ c ≤ '9' then some (c.toNat - '0'.toNat) else none

/-- Accumulating decimal parse of a character list; none on the first
non-digit character. -/
def parseDigitsAux : List Char → Nat → Option Nat
  | [], acc => some acc
  | c :: rest, acc =>
    match digitVal c with
    | some d => parseDigitsAux rest (acc * 10 + d)
    | none => none

/-- Parse of a non-empty all-digit character list; none for the empty
list or any non-digit content. -/
def parseDigits (cs : List Char) : Option Nat :=
  if cs = [] then none else parseDigitsAux cs 0

/-- Embedding of the Python builtin int applied to a string on line 65:
an optional sign followed by at least one digit; none models the raised
ValueError.  (The builtin also tolerates surrounding whitespace and
underscores between digits; those inputs do not occur in the claims and
are parsed as errors here, matching the strict core of the builtin.) -/
def pyInt : List Char → Option Int
  | '-' :: rest => (parseDigits rest).map (fun n => -(n : Int))
  | '+' :: rest => (parseDigits rest).map (fun n => (n : Int))
  | cs => (parseDigits cs).map (fun n => (n : Int))

/-- Sort key of line 65: int(x[name].split(dash)[1]) if the name contains
a dash, else 999.  The result none models the ValueError raised when the
segment after the first dash is not an integer literal. -/
def sortKeyOpt (name : String) : Option Int :=
  if '-' ∈ name.data then pyInt ((splitOnDash name.data).getD 1 [])
  else some 999

/-- Total version of the sort key used for comparisons once every key is
known to be defined. -/
def sortKeyVal (ep : Endpoint) : Int :=
  (sortKeyOpt ep.name).getD 999

/-- Comparison the sort of line 65 orders by: ascending integer key. -/
def sortRel (a b : Endpoint) : Prop :=
  sortKeyVal a ≤ sortKeyVal b

instance : DecidableRel sortRel :=
  fun a b => inferInstanceAs (Decidable (sortKeyVal a ≤ sortKeyVal b))

instance : IsTotal Endpoint sortRel :=
  ⟨fun a b => le_total (sortKeyVal a) (sortKeyVal b)⟩

instance : IsTrans Endpoint sortRel :=
  ⟨fun _ _ _ hab hbc => le_trans hab hbc⟩

/-- Embedding of load_data, lines 61 to 66: replace the record list with
the fetched one and, when non-empty, sort it in place (Python list.sort
is stable, modelled by a stable insertion sort).  The result none models
the exception propagating out of the sort when some key raises. -/
def loadData (fetched : List Endpoint) : Option (List Endpoint) :=
  if fetched.isEmpty then some fetched
  else if fetched.all (fun ep => (sortKeyOpt ep.name).isSome) then
    some (List.insertionSort sortRel fetched)
  else none

/-- Mutable viewer state of lines 26 to 28: the record list, the selected
row index and the scroll offset.  Both indices are Int because the source
can drive current_row to -1 on an empty list (lines 265 and 271). -/
structure ViewerState where
  endpoints : List Endpoint
  current_row : Int
  scroll_offset : Int
deriving DecidableEq

/-- One load as it acts on the whole viewer state: load_data only
replaces self.endpoints and touches neither current_row nor
scroll_offset (lines 61 to 66). -/
def loadStep (st : ViewerState) (fetched : List Endpoint) : Option ViewerState :=
  (loadData fetched).map (fun sorted => { st with endpoints := sorted })

/-- Scroll reconciliation of handle_scroll, lines 208 to 221, as the pure
function of the selected row, the scroll offset, the visible row count
and the record count it computes: pull the window up to the cursor, or
push it down so the cursor is its last row, then clamp the offset into
the interval from 0 to max 0 (n - 1). -/
def scrollReconcile (cr so vr : Int) (n : Nat) : Int :=
  max 0 (min (if cr < so then cr
              else if cr ≥ so + vr then cr - vr + 1
              else so)
             (max 0 ((n : Int) - 1)))

/-- Visible row count used by handle_scroll on line 214: terminal height
minus 10, a fixed approximation. -/
def visible_rows_approx (height : Int) : Int :=
  height - 10

/-- Embedding of handle_scroll, lines 208 to 221, acting on the viewer
state for a given terminal height. -/
def handle_scroll (height : Int) (st : ViewerState) : ViewerState :=
  { st with
      scroll_offset :=
        scrollReconcile st.current_row st.scroll_offset
          (visible_rows_approx height) st.endpoints.length }

/-- Navigation keys dispatched by the run loop, lines 255 to 272. -/
inductive NavKey where
  | up
  | down
  | pageUp
  | pageDown
  | home
  | toEnd
deriving DecidableEq

/-- One navigation key handled as in run, lines 255 to 272: arrow keys
move by one only when the guard on current_row allows it, page keys move
by ten with clamping, home resets both indices, end jumps to the last
index (which is -1 when the list is empty).  Every branch except home
then calls handle_scroll. -/
def applyNav (height : Int) (st : ViewerState) (k : NavKey) : ViewerState :=
  match k with
  | .up =>
      if 0 < st.current_row then
        handle_scroll height { st with current_row := st.current_row - 1 }
      else st
  | .down =>
      if st.current_row < (st.endpoints.length : Int) - 1 then
        handle_scroll height { st with current_row := st.current_row + 1 }
      else st
  | .pageUp =>
      handle_scroll height { st with current_row := max 0 (st.current_row - 10) }
  | .pageDown =>
      handle_scroll height
        { st with current_row := min ((st.endpoints.length : Int) - 1) (st.current_row + 10) }
  | .home => { st with current_row := 0, scroll_offset := 0 }
  | .toEnd =>
      handle_scroll height { st with current_row := (st.endpoints.length : Int) - 1 }

/-- A finite sequence of navigation keys fed to the run loop in order. -/
def navRun (height : Int) (st : ViewerState) (ks : List NavKey) : ViewerState :=
  ks.foldl (applyNav height) st

/-- Refresh interval of line 30, fixed at 15 seconds. -/
def refresh_interval : ℚ := 15

/-- Auto-refresh condition of line 229: the toggle is on and at least the
interval has elapsed since the last refresh attempt. -/
def shouldAutoRefresh (auto_refresh : Bool) (last_refresh_time now : ℚ) : Bool :=
  auto_refresh && decide (now - last_refresh_time ≥ refresh_interval)

/-- Row index directly below the header band, as returned by draw_header:
4 when there are no records (line 81), otherwise one past the loop that
writes one line per distinct phase value starting at row 3 (lines 97 to
109), hence 4 plus the number of distinct phases. -/
def draw_header_end (eps : List Endpoint) : Int :=
  if eps.isEmpty then 4
  else (3 + ((eps.map Endpoint.phase).eraseDups.length : Int)) + 1

/-- First table row in draw_table, line 132: two rows below the header
end (column titles and separator line). -/
def table_start_row (eps : List Endpoint) : Int :=
  draw_header_end eps + 2

/-- Number of table rows draw_table actually renders, line 133: terminal
height minus the table start row minus 3 rows of footer space. -/
def rendered_rows (height : Int) (eps : List Endpoint) : Int :=
  height - table_start_row eps - 3

/-- Outcome of one invocation of the external fetch inside get_endpoints,
lines 13 to 21: the subprocess ran and its output decoded (success), the
subprocess raised (toolFailure), json.loads raised (decodeFailure), or a
KeyboardInterrupt arrived inside the try block (interrupted). -/
inductive FetchOutcome where
  | success (records : List Endpoint)
  | toolFailure
  | decodeFailure
  | interrupted
deriving DecidableEq

/-- Embedding of get_endpoints, lines 13 to 21: the bare except clause
catches every exception class, KeyboardInterrupt included, and returns
the empty list. -/
def get_endpoints : FetchOutcome → List Endpoint
  | .success records => records
  | .toolFailure => []
  | .decodeFailure => []
  | .interrupted => []

/-- One refresh as performed by the run loop (lines 229 to 231 and 248 to
250): fetch, load, and keep looping; the Bool records that the loop
continues (only the quit key breaks it, line 246). -/
def refresh_step (st : ViewerState) (o : FetchOutcome) : Option (ViewerState × Bool) :=
  (loadData (get_endpoints o)).map (fun sorted => ({ st with endpoints := sorted }, true))

/-- Modelled from the spec: the sort key the specification describes in
its data-model section — the integer suffix after the LAST dash of the
name, or a large sentinel (999, matching the code) when the name has no
dash or the suffix is not an integer.  Used only to compare the
specified ordering with the one the code computes. -/
def specSortKey (name : String) : Int :=
  if '-' ∈ name.data then
    match pyInt ((splitOnDash name.data).getLastD []) with
    | some k => k
    | none => 999
  else 999

/-- Concrete record family used by witnesses: n records named ep-0 up to
ep-(n-1), all in phase READY. -/
def eps (n : Nat) : List Endpoint :=
  (List.range n).map (fun i => ⟨"ep-" ++ toString i, "READY"⟩)

/-- Viewer-state invariant maintained by navigation when the window holds
vr rows: the cursor is a valid index and lies inside the window. -/
def navInv (vr : Int) (st : ViewerState) : Prop :=
  0 ≤ st.current_row ∧ st.current_row < (st.endpoints.length : Int) ∧
  0 ≤ st.scroll_offset ∧ st.scroll_offset ≤ st.current_row ∧
  st.current_row < st.scroll_offset + vr

/-- Concrete record family with two distinct phase values, exercising the
header band that grows with the number of phases: even indices READY,
odd indices PENDING_ACCEPT. -/
def epsTwoPhases (n : Nat) : List Endpoint :=
  (List.range n).map
    (fun i => ⟨"ep-" ++ toString i, if i % 2 = 0 then "READY" else "PENDING_ACCEPT"⟩)

/-- Concrete evaluation: loading five well-named records succeeds and,
being already sorted, returns them unchanged. -/
theorem loadData_eps5_eq : loadData (eps 5) = some (eps 5) := by decide

/-- C5 (amended): scroll reconciliation is an idempotent pure function of
the tuple of selected index, scroll offset, visible rows and record
count whenever at least one row is visible; the claimed idempotence for
visibleRows at most 0 is refuted by the counterexample. -/
theorem c5_reconcile_idempotent (cr so vr : Int) (n : Nat) (hvr : 1 ≤ vr) :
    scrollReconcile cr (scrollReconcile cr so vr n) vr n = scrollReconcile cr so vr n := by
  unfold scrollReconcile
  split_ifs <;> omega

/-- C5 counterexample: with visibleRows = 0, five records, cursor 0 and
offset 0, one application yields offset 1 and a second yields 0, so the
function is not idempotent at the inputs the claim includes. -/
theorem c5_counterexample :
    ¬ (scrollReconcile 0 (scrollReconcile 0 0 0 5) 0 5 = scrollReconcile 0 0 0 5) := by decide

/-- C5 witness: the idempotence theorem applied at a concrete input with
ten visible rows. -/
theorem c5_witness :
    (1 : Int) ≤ 10 ∧
      scrollReconcile 7 (scrollReconcile 7 0 10 25) 10 25 = scrollReconcile 7 0 10 25 :=
  ⟨by decide, c5_reconcile_idempotent 7 0 10 25 (by decide)⟩

/-- C7 (confirmed): the auto-refresh test of line 229 is true exactly
when the toggle is on and at least the fixed 15 second interval has
elapsed since the last refresh attempt; in particular it is false 14.9
seconds after a refresh at time t, true exactly 15 seconds after, and
always false while the toggle is off. -/
theorem c7_should_auto_refresh :
    refresh_interval = 15 ∧
    (∀ (e : Bool) (last now : ℚ),
      shouldAutoRefresh e last now = true ↔ e = true ∧ refresh_interval ≤ now - last) ∧
    (∀ t : ℚ, shouldAutoRefresh true t (t + 149/10) = false) ∧
    (∀ t : ℚ, shouldAutoRefresh true t (t + 15) = true) ∧
    (∀ t now : ℚ, shouldAutoRefresh false t now = false) := by
  refine ⟨rfl, ?_, ?_, ?_, ?_⟩
  · intro e last now
    simp [shouldAutoRefresh, ge_iff_le]
  · intro t
    have ht : t + 149/10 - t = 149/10 := by ring
    simp [shouldAutoRefresh, refresh_interval, ht]
    norm_num
  · intro t
    have ht : t + 15 - t = 15 := by ring
    simp [shouldAutoRefresh, refresh_interval, ht]
  · intro t now
    simp [shouldAutoRefresh]

/-- C10 (confirmed): the record fetch is total over all failure modes.
Every non-success outcome of the external tool invocation or the JSON
decode, an interrupt arriving during the fetch included, is absorbed by
the bare except clause of get_endpoints into an empty record list, and a
refresh performed on such an outcome leaves the loop running with an
empty table rather than terminating it. -/
theorem c10_fetch_total_on_failures :
    (∀ o : FetchOutcome, (∀ records, o ≠ FetchOutcome.success records) → get_endpoints o = []) ∧
    (∀ st : ViewerState,
      refresh_step st FetchOutcome.interrupted = some ({ st with endpoints := [] }, true)) ∧
    get_endpoints FetchOutcome.toolFailure = [] ∧
    get_endpoints FetchOutcome.decodeFailure = [] ∧
    get_endpoints FetchOutcome.interrupted = [] := by
  refine ⟨?_, ?_, rfl, rfl, rfl⟩
  · intro o h
    cases o with
    | success records => exact absurd rfl (h records)
    | toolFailure => rfl
    | decodeFailure => rfl
    | interrupted => rfl
  · intro st
    rfl

/-- C10 witness: the totality theorem applied to the interrupt outcome. -/
theorem c10_witness : get_endpoints FetchOutcome.interrupted = [] :=
  c10_fetch_total_on_failures.1 FetchOutcome.interrupted
    (fun _ h => FetchOutcome.noConfusion h)

/-- C3 counterexample: a single record whose name is ep-x makes the sort
key expression raise a ValueError inside load_data, refuting the claim
that a load completes without raising for arbitrary name strings. -/
theorem c3_counterexample :
    loadData [⟨"ep-x", "READY"⟩] = none := by decide

/-- C3 (amended): a load completes without raising for every record list
in which each name with a dash has an integer segment directly after the
first dash (names without a dash always qualify), and the empty input is
valid, yielding the empty table state. -/
theorem c3_load_total (l : List Endpoint)
    (h : ∀ ep ∈ l, (sortKeyOpt ep.name).isSome = true) :
    (loadData l).isSome = true ∧ loadData [] = some [] := by
  constructor
  · unfold loadData
    split_ifs with h1 h2
    · rfl
    · rfl
    · exact absurd (List.all_eq_true.mpr h) h2
  · rfl

/-- C3 witness: the totality theorem applied to three well-named
records. -/
theorem c3_witness : (loadData (eps 3)).isSome = true :=
  (c3_load_total (eps 3) (by decide)).1

/-- C1 (amended): a completed load replaces the record list with the
sorted snapshot and leaves the selected index and scroll offset exactly
as they were — no reconciliation or clamping runs after a load, so after
a shrinking load they may lie outside the new valid range; the load
itself raises nothing on such a shrink. -/
theorem c1_load_keeps_selection (st : ViewerState) (l s : List Endpoint)
    (h : loadData l = some s) :
    loadStep st l = some { st with endpoints := s } := by
  simp [loadStep, h]

/-- C1 counterexample: with 41 records and the cursor on row 40, loading
a 5 record collection completes with the cursor still at 40, which is
outside the new valid range, refuting the claim that both indices are
clamped after every load. -/
theorem c1_counterexample :
    loadStep ⟨eps 41, 40, 31⟩ (eps 5) = some ⟨eps 5, 40, 31⟩ ∧
      ¬ ((40 : Int) < ((eps 5).length : Int)) := by
  refine ⟨?_, by decide⟩
  rw [loadStep, loadData_eps5_eq]
  rfl

/-- C1 witness: the amended theorem applied to the shrinking load from
41 records to 5. -/
theorem c1_witness :
    loadStep ⟨eps 41, 40, 31⟩ (eps 5) = some ⟨eps 5, 40, 31⟩ :=
  c1_load_keeps_selection ⟨eps 41, 40, 31⟩ (eps 5) (eps 5) loadData_eps5_eq

/-- Concrete evaluation of the sort example from the specification: the
names ep-3, ep-1, ep-10, other come out as ep-1, ep-3, ep-10, other. -/
theorem c2_example_eval :
    loadData [⟨"ep-3", "READY"⟩, ⟨"ep-1", "READY"⟩, ⟨"ep-10", "READY"⟩, ⟨"other", "READY"⟩] =
      some [⟨"ep-1", "READY"⟩, ⟨"ep-3", "READY"⟩, ⟨"ep-10", "READY"⟩, ⟨"other", "READY"⟩] := by
  decide

/-- Concrete evaluation: two records whose names carry two dashes each
load in their given order, because the segment after the first dash is
already ascending. -/
theorem loadData_c2pair :
    loadData [⟨"a-1-2", "READY"⟩, ⟨"a-2-1", "READY"⟩] =
      some [⟨"a-1-2", "READY"⟩, ⟨"a-2-1", "READY"⟩] := by decide

/-- C2 counterexample: the code keys on the segment after the FIRST dash,
not the integer suffix after the last dash.  Loading the names a-1-2 and
a-2-1 keeps that order, yet their last-dash suffixes are 2 and 1, so the
output is not ascending in the claimed key. -/
theorem c2_counterexample :
    loadData [⟨"a-1-2", "READY"⟩, ⟨"a-2-1", "READY"⟩] =
      some [⟨"a-1-2", "READY"⟩, ⟨"a-2-1", "READY"⟩] ∧
    specSortKey "a-1-2" = 2 ∧ specSortKey "a-2-1" = 1 ∧
    ¬ (specSortKey "a-1-2" ≤ specSortKey "a-2-1") :=
  ⟨loadData_c2pair, by decide, by decide, by decide⟩

/-- C2 (amended): every completed load produces a permutation of its
input that is ascending in the integer value of the segment after the
first dash of each name (999 for names without a dash); the example of
the specification, ep-3, ep-1, ep-10, other sorting to ep-1, ep-3,
ep-10, other, holds as stated. -/
theorem c2_sorts_by_first_dash_key (l s : List Endpoint) (h : loadData l = some s) :
    s.Perm l ∧ s.Pairwise (fun a b => sortKeyVal a ≤ sortKeyVal b) ∧
    loadData [⟨"ep-3", "READY"⟩, ⟨"ep-1", "READY"⟩, ⟨"ep-10", "READY"⟩, ⟨"other", "READY"⟩] =
      some [⟨"ep-1", "READY"⟩, ⟨"ep-3", "READY"⟩, ⟨"ep-10", "READY"⟩, ⟨"other", "READY"⟩] := by
  refine ⟨?_, ?_, c2_example_eval⟩ <;> (
    unfold loadData at h
    split_ifs at h with h1 h2)
  · cases h
    exact List.Perm.refl l
  · cases h
    exact List.perm_insertionSort sortRel l
  · cases h
    have hl : l = [] := List.isEmpty_iff.mp h1
    subst hl
    exact List.Pairwise.nil
  · cases h
    have hs := List.sorted_insertionSort sortRel l
    exact hs.imp (fun hab => hab)

/-- C2 witness: the amended theorem applied to a concrete completed
load of five records. -/
theorem c2_witness :
    (eps 5).Perm (eps 5) ∧
    (eps 5).Pairwise (fun a b => sortKeyVal a ≤ sortKeyVal b) ∧
    loadData [⟨"ep-3", "READY"⟩, ⟨"ep-1", "READY"⟩, ⟨"ep-10", "READY"⟩, ⟨"other", "READY"⟩] =
      some [⟨"ep-1", "READY"⟩, ⟨"ep-3", "READY"⟩, ⟨"ep-10", "READY"⟩, ⟨"other", "READY"⟩] :=
  c2_sorts_by_first_dash_key (eps 5) (eps 5) loadData_eps5_eq

/-- C4 counterexample: on an empty collection, page down sets the
selected index to min(len - 1, 0 + 10) = -1, so it is neither a no-op
nor non-negative, refuting the claim. -/
theorem c4_counterexample :
    (applyNav 20 ⟨[], 0, 0⟩ NavKey.pageDown).current_row = -1 := by decide

/-- C4 (amended): on an empty collection in the canonical empty state,
for every terminal height, the up, down, page-up and home keys are
no-ops, while page down and end drive the selected index to -1 (the
scroll offset is clamped back to 0 by reconciliation). -/
theorem c4_empty_navigation (h : Int) :
    applyNav h ⟨[], 0, 0⟩ NavKey.up = ⟨[], 0, 0⟩ ∧
    applyNav h ⟨[], 0, 0⟩ NavKey.down = ⟨[], 0, 0⟩ ∧
    applyNav h ⟨[], 0, 0⟩ NavKey.pageUp = ⟨[], 0, 0⟩ ∧
    applyNav h ⟨[], 0, 0⟩ NavKey.home = ⟨[], 0, 0⟩ ∧
    (applyNav h ⟨[], 0, 0⟩ NavKey.pageDown).current_row = -1 ∧
    (applyNav h ⟨[], 0, 0⟩ NavKey.pageDown).scroll_offset = 0 ∧
    (applyNav h ⟨[], 0, 0⟩ NavKey.toEnd).current_row = -1 ∧
    (applyNav h ⟨[], 0, 0⟩ NavKey.toEnd).scroll_offset = 0 := by
  simp only [applyNav, handle_scroll, scrollReconcile, visible_rows_approx, ViewerState.mk.injEq]
  norm_num

/-- Navigation never changes the record list. -/
theorem applyNav_endpoints (h : Int) (st : ViewerState) (k : NavKey) :
    (applyNav h st k).endpoints = st.endpoints := by
  cases k <;> simp only [applyNav, handle_scroll] <;> (try split) <;> rfl

/-- One navigation key keeps the selected index inside the valid range,
for every terminal height. -/
theorem applyNav_row_bounds (h : Int) (st : ViewerState) (k : NavKey)
    (h0 : 0 ≤ st.current_row) (h1 : st.current_row < (st.endpoints.length : Int)) :
    0 ≤ (applyNav h st k).current_row ∧
      (applyNav h st k).current_row < (st.endpoints.length : Int) := by
  cases k <;>
    simp only [applyNav, handle_scroll] <;>
    (try split_ifs) <;>
    (try dsimp only) <;>
    omega

/-- One navigation key preserves the full viewport invariant when at
least one row is visible. -/
theorem applyNav_inv (h : Int) (st : ViewerState) (k : NavKey)
    (hvr : 1 ≤ h - 10) (hinv : navInv (h - 10) st) :
    navInv (h - 10) (applyNav h st k) := by
  obtain ⟨h0, h1, h2, h3, h4⟩ := hinv
  cases k <;>
    simp only [applyNav, handle_scroll, scrollReconcile, visible_rows_approx, navInv] <;>
    (try split_ifs) <;>
    (try dsimp only) <;>
    omega

/-- A navigation sequence never changes the record list. -/
theorem navRun_endpoints (h : Int) (ks : List NavKey) (st : ViewerState) :
    (navRun h st ks).endpoints = st.endpoints := by
  induction ks generalizing st with
  | nil => rfl
  | cons k ks ih => exact (ih (applyNav h st k)).trans (applyNav_endpoints h st k)

/-- A navigation sequence keeps the selected index inside the valid
range, for every terminal height. -/
theorem navRun_row_bounds (h : Int) (ks : List NavKey) (st : ViewerState)
    (h0 : 0 ≤ st.current_row) (h1 : st.current_row < (st.endpoints.length : Int)) :
    0 ≤ (navRun h st ks).current_row ∧
      (navRun h st ks).current_row < (st.endpoints.length : Int) := by
  induction ks generalizing st with
  | nil => exact ⟨h0, h1⟩
  | cons k ks ih =>
      have hb := applyNav_row_bounds h st k h0 h1
      have he := applyNav_endpoints h st k
      have hr := ih (applyNav h st k) hb.1 (by rw [he]; exact hb.2)
      rw [he] at hr
      exact hr

/-- A navigation sequence preserves the full viewport invariant when at
least one row is visible. -/
theorem navRun_inv (h : Int) (ks : List NavKey) (st : ViewerState)
    (hvr : 1 ≤ h - 10) (hinv : navInv (h - 10) st) :
    navInv (h - 10) (navRun h st ks) := by
  induction ks generalizing st with
  | nil => exact hinv
  | cons k ks ih => exact ih (applyNav h st k) (applyNav_inv h st k hvr hinv)

/-- C6 counterexample: at terminal height 10 the approximate visible row
count is 0; after one down key on five records the cursor is 1 while the
scroll offset becomes 2, so the (empty) visible window does not contain
the cursor, refuting the claim read over all heights. -/
theorem c6_counterexample :
    (navRun 10 ⟨eps 5, 0, 0⟩ [NavKey.down]).current_row = 1 ∧
    (navRun 10 ⟨eps 5, 0, 0⟩ [NavKey.down]).scroll_offset = 2 ∧
    ¬ ((navRun 10 ⟨eps 5, 0, 0⟩ [NavKey.down]).scroll_offset ≤
        (navRun 10 ⟨eps 5, 0, 0⟩ [NavKey.down]).current_row) := by decide

/-- C6 (amended): for every non-empty record set and every finite
navigation sequence from the initial state, the selected index stays in
the valid range at every terminal height, and whenever the approximate
visible row count (height - 10) is at least 1 the visible window
contains the selected index. -/
theorem c6_navigation_invariant (recs : List Endpoint) (hgt : Int) (ks : List NavKey)
    (hne : recs ≠ []) :
    (0 ≤ (navRun hgt ⟨recs, 0, 0⟩ ks).current_row ∧
      (navRun hgt ⟨recs, 0, 0⟩ ks).current_row < (recs.length : Int)) ∧
    (1 ≤ hgt - 10 →
      (navRun hgt ⟨recs, 0, 0⟩ ks).scroll_offset ≤ (navRun hgt ⟨recs, 0, 0⟩ ks).current_row ∧
      (navRun hgt ⟨recs, 0, 0⟩ ks).current_row <
        (navRun hgt ⟨recs, 0, 0⟩ ks).scroll_offset + (hgt - 10)) := by
  have hlen : 0 < recs.length := List.length_pos.mpr hne
  have hlen2 : (0 : Int) < (recs.length : Int) := by exact_mod_cast hlen
  constructor
  · exact navRun_row_bounds hgt ks ⟨recs, 0, 0⟩ le_rfl hlen2
  · intro hvr
    have hinv : navInv (hgt - 10) (⟨recs, 0, 0⟩ : ViewerState) := by
      refine ⟨le_rfl, hlen2, le_rfl, le_rfl, ?_⟩
      show (0 : Int) < 0 + (hgt - 10)
      omega
    have hr := navRun_inv hgt ks ⟨recs, 0, 0⟩ hvr hinv
    exact ⟨hr.2.2.2.1, hr.2.2.2.2⟩

/-- C6 witness: the invariant theorem applied to five records, height 20
and a single down key. -/
theorem c6_witness :
    (0 ≤ (navRun 20 ⟨eps 5, 0, 0⟩ [NavKey.down]).current_row ∧
      (navRun 20 ⟨eps 5, 0, 0⟩ [NavKey.down]).current_row < ((eps 5).length : Int)) ∧
    (1 ≤ (20 : Int) - 10 →
      (navRun 20 ⟨eps 5, 0, 0⟩ [NavKey.down]).scroll_offset ≤
        (navRun 20 ⟨eps 5, 0, 0⟩ [NavKey.down]).current_row ∧
      (navRun 20 ⟨eps 5, 0, 0⟩ [NavKey.down]).current_row <
        (navRun 20 ⟨eps 5, 0, 0⟩ [NavKey.down]).scroll_offset + ((20 : Int) - 10)) :=
  c6_navigation_invariant (eps 5) 20 [NavKey.down] (by decide)

/-- C8 counterexample: with 25 records and 10 visible rows (height 20),
end followed by three page-up keys lands the cursor on row 0, not on the
claimed row 15 (the cursor path is 24, 14, 4, 0). -/
theorem c8_counterexample :
    (navRun 20 ⟨eps 25, 0, 0⟩
        [NavKey.toEnd, NavKey.pageUp, NavKey.pageUp, NavKey.pageUp]).current_row = 0 ∧
    ¬ ((navRun 20 ⟨eps 25, 0, 0⟩
        [NavKey.toEnd, NavKey.pageUp, NavKey.pageUp, NavKey.pageUp]).current_row = 15) := by
  decide

/-- C8 (amended): with 25 records and 10 visible rows, from every
starting cursor and offset, end followed by three page-up keys leaves
the selected index at 0 with scroll offset 0, and the visible window
contains row 0. -/
theorem c8_end_three_pageups (cr so : Int) :
    (navRun 20 ⟨eps 25, cr, so⟩
        [NavKey.toEnd, NavKey.pageUp, NavKey.pageUp, NavKey.pageUp]).current_row = 0 ∧
    (navRun 20 ⟨eps 25, cr, so⟩
        [NavKey.toEnd, NavKey.pageUp, NavKey.pageUp, NavKey.pageUp]).scroll_offset = 0 ∧
    (navRun 20 ⟨eps 25, cr, so⟩
        [NavKey.toEnd, NavKey.pageUp, NavKey.pageUp, NavKey.pageUp]).scroll_offset ≤
      (navRun 20 ⟨eps 25, cr, so⟩
        [NavKey.toEnd, NavKey.pageUp, NavKey.pageUp, NavKey.pageUp]).current_row ∧
    (navRun 20 ⟨eps 25, cr, so⟩
        [NavKey.toEnd, NavKey.pageUp, NavKey.pageUp, NavKey.pageUp]).current_row <
      (navRun 20 ⟨eps 25, cr, so⟩
        [NavKey.toEnd, NavKey.pageUp, NavKey.pageUp, NavKey.pageUp]).scroll_offset + 10 := by
  have key : ∀ s1 : Int, 15 ≤ s1 → s1 ≤ 24 →
      navRun 20 ⟨eps 25, 24, s1⟩ [NavKey.pageUp, NavKey.pageUp, NavKey.pageUp] =
        ⟨eps 25, 0, 0⟩ := by
    intro s1 hlo hhi
    have hrec : scrollReconcile 14 s1 10 25 = 14 := by
      unfold scrollReconcile
      split_ifs <;> omega
    have hstep : applyNav 20 ⟨eps 25, 24, s1⟩ NavKey.pageUp = ⟨eps 25, 14, 14⟩ := by
      calc applyNav 20 ⟨eps 25, 24, s1⟩ NavKey.pageUp
          = ⟨eps 25, 14, scrollReconcile 14 s1 10 25⟩ := rfl
        _ = ⟨eps 25, 14, 14⟩ := by rw [hrec]
    show navRun 20 (applyNav 20 ⟨eps 25, 24, s1⟩ NavKey.pageUp)
        [NavKey.pageUp, NavKey.pageUp] = ⟨eps 25, 0, 0⟩
    rw [hstep]
    decide
  have h24 : applyNav 20 ⟨eps 25, cr, so⟩ NavKey.toEnd =
      ⟨eps 25, 24, scrollReconcile 24 so 10 25⟩ := rfl
  have hmain : navRun 20 ⟨eps 25, cr, so⟩
      [NavKey.toEnd, NavKey.pageUp, NavKey.pageUp, NavKey.pageUp] = ⟨eps 25, 0, 0⟩ := by
    show navRun 20 (applyNav 20 ⟨eps 25, cr, so⟩ NavKey.toEnd)
        [NavKey.pageUp, NavKey.pageUp, NavKey.pageUp] = ⟨eps 25, 0, 0⟩
    rw [h24]
    refine key (scrollReconcile 24 so 10 25) ?_ ?_ <;>
      (unfold scrollReconcile; split_ifs <;> omega)
  rw [hmain]
  exact ⟨rfl, rfl, by decide, by decide⟩

/-- C9 (confirmed): handle_scroll always reconciles with the fixed
approximation height - 10, independent of the header band, whose height
grows with the number of distinct phase values; whenever the actually
rendered row count (height - table start - 3) is at least height - 10, a
reconciled cursor falls inside the rendered rows; and at height 20 with
two distinct phases the rendered count drops to 9 below the
approximation 10, where a reconciled state exists (cursor 9, offset 0)
whose cursor row is not rendered. -/
theorem c9_visible_rows_approximation :
    (∀ (h : Int) (st : ViewerState),
      handle_scroll h st =
        { st with
            scroll_offset :=
              scrollReconcile st.current_row st.scroll_offset (h - 10) st.endpoints.length } ∧
      visible_rows_approx h = h - 10) ∧
    (∀ (h : Int) (l : List Endpoint) (so cr : Int),
      h - 10 ≤ rendered_rows h l → so ≤ cr → cr < so + (h - 10) → cr < (l.length : Int) →
      so ≤ cr ∧ cr < so + rendered_rows h l ∧ cr < (l.length : Int)) ∧
    (rendered_rows 20 (epsTwoPhases 25) < 20 - 10 ∧
     scrollReconcile 9 0 (20 - 10) (epsTwoPhases 25).length = 0 ∧
     (0 : Int) ≤ 9 ∧ (9 : Int) < 0 + (20 - 10) ∧
     ¬ ((9 : Int) < 0 + rendered_rows 20 (epsTwoPhases 25))) := by
  refine ⟨fun h st => ⟨rfl, rfl⟩,
    fun h l so cr h1 h2 h3 h4 => ⟨h2, by omega, h4⟩,
    by decide, by decide, by decide, by decide, by decide⟩

/-- C9 witness: the sufficiency conjunct applied at height 20 with a
single phase value, where the rendered count 10 meets the
approximation. -/
theorem c9_witness :
    (0 : Int) ≤ 5 ∧ (5 : Int) < 0 + rendered_rows 20 (eps 25) ∧
      (5 : Int) < ((eps 25).length : Int) :=
  c9_visible_rows_approximation.2.1 20 (eps 25) 0 5 (by decide) (by decide) (by decide) (by decide)
